import Mathlib

/-!
# Verification of the Seoul subway Telegram bot's data-normalization core

Shallow embedding of `subway_api.py` and `timetable_api.py`: the realtime
arrival normalizer (rank keys, stable sorting), the schedule aggregator
(station-code cache, weekday types, KRIC timetable fetch) and their
error-handling behaviour, together with proofs of the specified properties.

Python values decoded from JSON are modelled by `PyVal`; Python exceptions
that can escape the functions are modelled by `Except PyErr`.  Machine
integers are modelled by `Int` (Python integers are unbounded).  The
current local time / date enter as explicit parameters.
-/

/-- Python exceptions relevant to the modelled code paths. -/
inductive PyErr where
  | keyError
  | attributeError
  | typeError
  | valueError
  deriving DecidableEq, Repr

/-- A Python value as produced by `json.loads`: `None`, `bool`, `int`,
`str`, `list`, `dict` (keys are strings in JSON objects).  Floats never
occur in the modelled fields and are omitted. -/
inductive PyVal where
  | none
  | bool (b : Bool)
  | int (n : Int)
  | str (s : String)
  | list (xs : List PyVal)
  | dict (entries : List (String × PyVal))

/-- Python truthiness (`if v:`). -/
def truthy : PyVal → Bool
  | .none => false
  | .bool b => b
  | .int n => n != 0
  | .str s => s ≠ ""
  | .list xs => !xs.isEmpty
  | .dict e => !e.isEmpty

/-- Python `v == m` against an int literal `m` (bool is an int subclass). -/
def pyEqInt (v : PyVal) (m : Int) : Bool :=
  match v with
  | .int n => n == m
  | .bool b => (if b then (1 : Int) else 0) == m
  | _ => false

/-- Python `v == t` against a str literal `t`. -/
def pyEqStr (v : PyVal) (t : String) : Bool :=
  match v with
  | .str s => s == t
  | _ => false

/-- Python `obj.get(key, default)`: dict lookup with default; calling
`.get` on a non-dict raises `AttributeError`. -/
def getField (item : PyVal) (key : String) (dflt : PyVal) : Except PyErr PyVal :=
  match item with
  | .dict entries => .ok ((entries.lookup key).getD dflt)
  | _ => .error .attributeError

/-- Python `obj.get(key)` (default `None`). -/
def getField0 (item : PyVal) (key : String) : Except PyErr PyVal :=
  getField item key .none

/-- Dict field whose schema type is `str`: a missing key yields the given
default; a non-string value in a string-typed provider field is modelled
as a `TypeError` (Python would defer the failure to the first string
operation on the stored value). -/
def getStrField (item : PyVal) (key : String) (dflt : String) : Except PyErr String :=
  match item with
  | .dict entries =>
    match entries.lookup key with
    | Option.none => .ok dflt
    | Option.some (.str s) => .ok s
    | Option.some _ => .error .typeError
  | _ => .error .attributeError

/-- Python iteration `for item in v`: lists yield elements, dicts yield
their keys, strings yield one-character strings, other values raise
`TypeError`. -/
def pyIter : PyVal → Except PyErr (List PyVal)
  | .list xs => .ok xs
  | .dict e => .ok (e.map (fun p => .str p.1))
  | .str s => .ok (s.toList.map (fun c => .str (String.mk [c])))
  | _ => .error .typeError

/-- Python whitespace (`\s` / `str.strip`), ASCII part. -/
def isPySpace (c : Char) : Bool :=
  c = ' ' || c = '\t' || c = '\n' || c = '\r' || c.toNat = 11 || c.toNat = 12

/-- Value of a run of decimal digit characters. -/
def digitsToNat (cs : List Char) : Nat :=
  cs.foldl (fun acc c => acc * 10 + (c.toNat - '0'.toNat)) 0

/-- Python `int(s)` on a string: optional surrounding whitespace, optional
sign, a nonempty run of decimal digits; anything else raises `ValueError`.
(Digits are modelled as ASCII `0`-`9`.) -/
def pyIntOfString (s : String) : Except PyErr Int :=
  let cs := s.toList.dropWhile isPySpace
  let signed : Int × List Char :=
    match cs with
    | '+' :: rest => (1, rest)
    | '-' :: rest => (-1, rest)
    | _ => (1, cs)
  let digits := signed.2.takeWhile Char.isDigit
  let rest := (signed.2.dropWhile Char.isDigit).dropWhile isPySpace
  if digits.isEmpty || !rest.isEmpty then .error .valueError
  else .ok (signed.1 * (digitsToNat digits : Int))

/-- Python `int(v)` for the modelled value universe: strings are parsed,
ints pass through, bools become 0/1, everything else is a `TypeError`. -/
def pyInt : PyVal → Except PyErr Int
  | .str s => pyIntOfString s
  | .int n => .ok n
  | .bool b => .ok (if b then 1 else 0)
  | _ => .error .typeError

/-- `int(item.get("barvlDt", "0") or "0")` wrapped in
`except (ValueError, TypeError): seconds = 0`
(`subway_api.py` lines 95-98): total, never raises. -/
def parseBarvl (v : PyVal) : Int :=
  match pyInt (if truthy v then v else .str "0") with
  | .ok n => n
  | .error _ => 0

/- ## String matching for the arrival-message heuristics -/

/-- `needle` occurs at the head of `hay`. -/
def headMatches : List Char → List Char → Bool
  | _, [] => true
  | [], _ :: _ => false
  | c :: cs, d :: ds => c == d && headMatches cs ds

/-- Python `needle in hay` (substring containment). -/
def containsSub (needle : String) (hay : List Char) : Bool :=
  match hay with
  | [] => headMatches [] needle.toList
  | _ :: cs => headMatches hay needle.toList || containsSub needle cs

/-- Attempt to match the regex `(\d+)번째\s*전역` anchored at the head of
the character list, returning the integer value of group 1.  Backtracking
is irrelevant here: a shorter digit run is necessarily followed by another
digit, and a shorter whitespace run by another whitespace character, so
the greedy runs are forced. -/
def stationCountAt (cs : List Char) : Option Nat :=
  let digits := cs.takeWhile Char.isDigit
  if digits.isEmpty then Option.none
  else
    let after := cs.dropWhile Char.isDigit
    if headMatches after ['번', '째'] then
      let afterWs := (after.drop 2).dropWhile isPySpace
      if headMatches afterWs ['전', '역'] then Option.some (digitsToNat digits)
      else Option.none
    else Option.none

/-- `_STATION_COUNT_RE.search(message)` followed by `int(m.group(1))`:
the leftmost match of `(\d+)번째\s*전역` (`subway_api.py` line 16). -/
def stationCountSearch : List Char → Option Nat
  | [] => Option.none
  | c :: cs =>
    match stationCountAt (c :: cs) with
    | Option.some n => Option.some n
    | Option.none => stationCountSearch cs

/-- `_parse_station_count` (`subway_api.py` lines 47-56). -/
def parse_station_count (message : String) : Nat :=
  match stationCountSearch message.toList with
  | Option.some n => n
  | Option.none =>
    if containsSub "전역 출발" message.toList || containsSub "전역 도착" message.toList then 1
    else if containsSub "당역 진입" message.toList || containsSub "도착" message.toList then 0
    else 999

/- ## ArrivalInfo and its rank key -/

/-- The `ArrivalInfo` dataclass (`subway_api.py` lines 19-44), with its
annotated field types. -/
structure ArrivalInfo where
  line_name : String
  station_name : String
  direction : String
  destination : String
  arrival_message : String
  arrival_seconds : Int
  train_type : String
  deriving DecidableEq, Repr

/-- The `sort_key` property (`subway_api.py` lines 40-44). -/
def sort_key (a : ArrivalInfo) : Int :=
  if a.arrival_seconds > 0 then a.arrival_seconds
  else (parse_station_count a.arrival_message : Int) * 120

/- ## Stable sorting by a precomputed key

`list.sort(key=f)` in CPython first computes `f` on every element in list
order and then performs a stable sort on the keys.  Any stable sort is
extensionally determined by the key sequence; it is modelled here by a
stable insertion sort on (key, element) pairs. -/

/-- Insert `p` into `l` after every element whose key is strictly smaller,
and before the first element whose key is not — so before existing
elements with an equal key, which preserves stability when the inserted
element precedes them in the original list. -/
def insertByKey (lt : κ → κ → Bool) (p : κ × α) : List (κ × α) → List (κ × α)
  | [] => [p]
  | q :: qs => if lt q.1 p.1 then q :: insertByKey lt p qs else p :: q :: qs

/-- Stable sort of (key, element) pairs, ascending by key. -/
def sortByKey (lt : κ → κ → Bool) : List (κ × α) → List (κ × α)
  | [] => []
  | p :: ps => insertByKey lt p (sortByKey lt ps)

/-- `results.sort(key=lambda a: a.sort_key)` (`subway_api.py` line 112). -/
def sortArrivals (records : List ArrivalInfo) : List ArrivalInfo :=
  (sortByKey (fun a b : Int => decide (a < b))
    (records.map (fun a => (sort_key a, a)))).map Prod.snd

/- ## The realtime arrival pipeline (`get_realtime_arrivals`) -/

/-- Outcome of the HTTP fetch inside the `try` block: `exn` covers a
network failure, timeout, or JSON-decode failure (all caught and turned
into `[]`); `http` carries the status code and, for status 200, the
decoded payload. -/
inductive FetchOutcome where
  | exn
  | http (status : Nat) (data : PyVal)

/-- One iteration of the parsing loop (`subway_api.py` lines 94-110):
build an `ArrivalInfo` from one raw provider item.  `LINE_IDS` is the
static `subwayId → line name` table imported from `station_data.py` (a
module outside the modelled sources), kept abstract as a parameter. -/
def readArrival (LINE_IDS : List (String × String)) (station_name : String)
    (item : PyVal) : Except PyErr ArrivalInfo :=
  match getField item "barvlDt" (.str "0") with
  | .error e => .error e
  | .ok bv =>
    let seconds := parseBarvl bv
    match getStrField item "subwayId" "" with
    | .error e => .error e
    | .ok subway_id =>
      match getStrField item "statnNm" station_name with
      | .error e => .error e
      | .ok statn =>
        match getStrField item "updnLine" "" with
        | .error e => .error e
        | .ok updn =>
          match getStrField item "bstatnNm" "" with
          | .error e => .error e
          | .ok bstatn =>
            match getStrField item "arvlMsg2" "" with
            | .error e => .error e
            | .ok msg =>
              match getStrField item "btrainSttus" "일반" with
              | .error e => .error e
              | .ok tt =>
                .ok { line_name := (LINE_IDS.lookup subway_id).getD subway_id
                      station_name := statn
                      direction := updn
                      destination := bstatn
                      arrival_message := msg
                      arrival_seconds := seconds
                      train_type := if tt = "" then "일반" else tt }

/-- Sequence a fallible parse over a list, stopping at the first error
(the shape of the Python `for` loop). -/
def mapExcept (f : α → Except ε β) : List α → Except ε (List β)
  | [] => .ok []
  | a :: as =>
    match f a with
    | .error e => .error e
    | .ok b =>
      match mapExcept f as with
      | .error e => .error e
      | .ok bs => .ok (b :: bs)

/-- `subway_api.py` lines 92-113: read `realtimeArrivalList`, parse every
item, and sort the records by their rank key. -/
def realtimeItems (LINE_IDS : List (String × String)) (station_name : String)
    (data : PyVal) : Except PyErr (List ArrivalInfo) :=
  match getField data "realtimeArrivalList" (.list []) with
  | .error e => .error e
  | .ok rl =>
    match pyIter rl with
    | .error e => .error e
    | .ok items =>
      match mapExcept (readArrival LINE_IDS station_name) items with
      | .error e => .error e
      | .ok infos => .ok (sortArrivals infos)

/-- `subway_api.py` lines 84-113: the error-envelope check (note that a
`status` equal to 200 falls through to normal parsing) followed by the
parsing loop. -/
def processRealtime (LINE_IDS : List (String × String)) (station_name : String)
    (data : PyVal) : Except PyErr (List ArrivalInfo) :=
  match getField0 data "errorMessage" with
  | .error e => .error e
  | .ok em =>
    if truthy em then
      match getField0 em "status" with
      | .error e => .error e
      | .ok status =>
        if !pyEqInt status 200 then .ok []
        else realtimeItems LINE_IDS station_name data
    else realtimeItems LINE_IDS station_name data

/-- `get_realtime_arrivals` (`subway_api.py` lines 59-113), as a function
of the fetch outcome: any exception inside the `try` block and any
non-200 HTTP status yield `[]`; a decoded payload is processed. -/
def get_realtime_arrivals (LINE_IDS : List (String × String))
    (station_name : String) : FetchOutcome → Except PyErr (List ArrivalInfo)
  | .exn => .ok []
  | .http status data =>
    if status ≠ 200 then .ok []
    else processRealtime LINE_IDS station_name data

/- ## Schedule aggregator (`timetable_api.py`) -/

/-- The `TimetableEntry` dataclass (`timetable_api.py` lines 151-159). -/
structure TimetableEntry where
  train_no : String
  destination : String
  departure_time : String
  arrival_time : String
  is_express : Bool
  deriving DecidableEq, Repr

/-- `KRIC_S1_LINES` (`timetable_api.py` line 36). -/
def KRIC_S1_LINES : List String := ["1호선", "2호선"]

/-- `KRIC_LINES` (`timetable_api.py` lines 40-43). -/
def KRIC_LINES : List String :=
  KRIC_S1_LINES ++
    ["수인분당선", "경의중앙선", "경춘선", "서해선", "경강선",
     "공항철도", "신분당선", "우이신설선", "신림선"]

/-- `_KRIC_DAY_CODE` (`timetable_api.py` line 48). -/
def KRIC_DAY_CODE : List (Nat × Nat) := [(1, 8), (2, 7), (3, 9)]

/-- `KRIC_LINE_CODES` (`timetable_api.py` lines 53-65). -/
def KRIC_LINE_CODES : List (String × (String × String)) :=
  [("1호선", ("S1", "1")),
   ("2호선", ("S1", "2")),
   ("수인분당선", ("KR", "K2")),
   ("경의중앙선", ("KR", "K4")),
   ("경춘선", ("KR", "K5")),
   ("서해선", ("KR", "K7")),
   ("경강선", ("KR", "K8")),
   ("공항철도", ("AREX", "A1")),
   ("신분당선", ("SBL", "D1")),
   ("우이신설선", ("UI", "UI")),
   ("신림선", ("SL", "SL"))]

/-- Python `d[k]` on a dict: the value, or a `KeyError` when absent. -/
def dictIndex [BEq κ] (d : List (κ × α)) (k : κ) : Except PyErr α :=
  match d.lookup k with
  | Option.some v => .ok v
  | Option.none => .error .keyError

/-- `get_weekday_type` (`timetable_api.py` lines 243-253) as a function of
`datetime.now(KST).weekday()` (Monday = 0 … Sunday = 6). -/
def get_weekday_type (weekday : Nat) : Nat × String :=
  if weekday = 5 then (2, "토요일")
  else if weekday = 6 then (3, "일요일/공휴일")
  else (1, "평일")

/-- `_norm_time` (`timetable_api.py` lines 392-398): falsy values become
`""`; a 6-character colon-free string is formatted as `HH:MM:SS`; other
strings pass through.  `len()` on a non-sized truthy value raises
`TypeError` (container-valued time fields are likewise modelled as a
`TypeError`). -/
def norm_time (t : PyVal) : Except PyErr String :=
  if !truthy t then .ok ""
  else match t with
    | .str s =>
      let cs := s.toList
      .ok (if cs.length = 6 && !(cs.contains ':') then
            String.mk (cs.take 2) ++ ":" ++ String.mk ((cs.drop 2).take 2)
              ++ ":" ++ String.mk (cs.drop 4)
          else s)
    | _ => .error .typeError

/-- One iteration of the KRIC parsing loop (`timetable_api.py` lines
401-414): `Option.none` means the entry was skipped for lack of a
departure time. -/
def readKricItem (item : PyVal) : Except PyErr (Option TimetableEntry) :=
  match getField0 item "dptTm" with
  | .error e => .error e
  | .ok dv =>
    match norm_time dv with
    | .error e => .error e
    | .ok dpt =>
      if dpt = "" then .ok Option.none
      else
        match getField0 item "arvTm" with
        | .error e => .error e
        | .ok av =>
          match norm_time av with
          | .error e => .error e
          | .ok arv =>
            match getStrField item "trnNo" "" with
            | .error e => .error e
            | .ok trn =>
              .ok (Option.some
                { train_no := trn
                  destination := ""
                  departure_time := dpt
                  arrival_time := arv
                  is_express := false })

/-- Python `a < b` on strings: lexicographic comparison of code points. -/
def lexLt : List Char → List Char → Bool
  | [], [] => false
  | [], _ :: _ => true
  | _ :: _, [] => false
  | a :: as, b :: bs =>
    if a.toNat < b.toNat then true
    else if b.toNat < a.toNat then false
    else lexLt as bs

/-- Python `a < b` on strings. -/
def pyStrLt (a b : String) : Bool := lexLt a.toList b.toList

/-- Python `a <= b` on strings (total order: `a <= b` iff not `b < a`). -/
def pyStrLe (a b : String) : Bool := !(pyStrLt b a)

/-- `results.sort(key=lambda e: e.departure_time)` (`timetable_api.py`
line 416): stable sort on the departure-time string. -/
def sortTimetable (entries : List TimetableEntry) : List TimetableEntry :=
  (sortByKey pyStrLt
    (entries.map (fun e => (e.departure_time, e)))).map Prod.snd

/-- `items: list[dict] = body if isinstance(body, list) else []`
(`timetable_api.py` line 388). -/
def kricItems (body : PyVal) : List PyVal :=
  match body with
  | .list xs => xs
  | _ => []

/-- `timetable_api.py` lines 378-417: the KRIC result-header check and the
item loop over the body. -/
def processKric (data : PyVal) : Except PyErr (List TimetableEntry) :=
  match getField data "header" (.dict []) with
  | .error e => .error e
  | .ok header =>
    match getField0 header "resultCode" with
    | .error e => .error e
    | .ok rc =>
      if !pyEqStr rc "00" then .ok []
      else
        match getField data "body" (.list []) with
        | .error e => .error e
        | .ok body =>
          if (kricItems body).isEmpty then .ok []
          else
            match mapExcept readKricItem (kricItems body) with
            | .error e => .error e
            | .ok entries => .ok (sortTimetable (entries.filterMap id))

/-- `get_timetable_kric` (`timetable_api.py` lines 326-417): the missing-key
guard, the two unguarded dict indexings, then the fetch (abstracted as a
`FetchOutcome`) and the response processing.  `station_code` and
`direction_code` only feed the outbound request. -/
def get_timetable_kric (kric_key line_name station_code : String)
    (weekday : Nat) (direction_code : Nat) (outcome : FetchOutcome) :
    Except PyErr (List TimetableEntry) :=
  if kric_key = "" then .ok []
  else
    match dictIndex KRIC_LINE_CODES line_name with
    | .error e => .error e
    | .ok _codes =>
      match dictIndex KRIC_DAY_CODE weekday with
      | .error e => .error e
      | .ok _kric_day =>
        match outcome with
        | .exn => .ok []
        | .http status data =>
          if status ≠ 200 then .ok []
          else processKric data

/-- `get_upcoming` (`timetable_api.py` lines 420-426) as a function of the
current KST clock string `now` (formatted `HH:MM:SS`); Python compares the
time strings lexicographically, as does `String.le`. -/
def get_upcoming (timetable : List TimetableEntry) (count : Nat)
    (now : String) : List TimetableEntry :=
  (timetable.filter (fun e => pyStrLe now e.departure_time)).take count

/- ## Station FR-code lookup and its cache (`get_station_fr_code`) -/

/-- One row of the `SearchInfoBySubwayNameService` response, with the two
fields the lookup reads. -/
structure StationRow where
  LINE_NUM : String
  FR_CODE : String
  deriving DecidableEq, Repr

/-- `_LINE_NUM_ALIASES` (`timetable_api.py` lines 145-148): built by a
loop over `n = 1..9`, mapping both `0{n}호선` and `{n}호선` to `{n}호선`. -/
def LINE_NUM_ALIASES : List (String × String) :=
  (List.range' 1 9).flatMap (fun n =>
    [("0" ++ toString n ++ "호선", toString n ++ "호선"),
     (toString n ++ "호선", toString n ++ "호선")])

/-- `_normalize_api_line` (`timetable_api.py` lines 199-201). -/
def normalize_api_line (line_num : String) : String :=
  (LINE_NUM_ALIASES.lookup line_num).getD line_num

/-- The `_fr_code_cache` dict (`timetable_api.py` line 171), as an
association list where the most recent insertion is first. -/
structure FrCacheState where
  cache : List ((String × String) × String)
  deriving DecidableEq, Repr

/-- The row-scanning loop of `get_station_fr_code` (`timetable_api.py`
lines 221-228): the first row with a nonempty `FR_CODE` whose normalized
line matches the filter (or any such row when no filter is given). -/
def findFr (line_name : Option String) : List StationRow → Option (String × String)
  | [] => Option.none
  | row :: rest =>
    let api_line := normalize_api_line row.LINE_NUM
    if row.FR_CODE = "" then findFr line_name rest
    else if line_name = Option.none || line_name = Option.some api_line then
      Option.some (row.FR_CODE, api_line)
    else findFr line_name rest

/-- `get_station_fr_code` (`timetable_api.py` lines 204-230).  The provider
lookup `_lookup_station_info` is abstracted as a fixed function
`rows : station name → response rows` ("provider data unchanged"); the
cache is explicit state. -/
def get_station_fr_code (rows : String → List StationRow)
    (st : FrCacheState) (station_name : String) (line_name : Option String) :
    Option (String × String) × FrCacheState :=
  let cache_key := (station_name, line_name.getD "")
  match st.cache.lookup cache_key with
  | Option.some fr_code => (Option.some (fr_code, line_name.getD ""), st)
  | Option.none =>
    let rs := rows station_name
    if rs.isEmpty then (Option.none, st)
    else
      match findFr line_name rs with
      | Option.none => (Option.none, st)
      | Option.some (fr_code, api_line) =>
        (Option.some (fr_code, api_line),
         { cache := (cache_key, fr_code) :: st.cache })

/- ## Generic properties of the stable key sort -/

theorem mem_insertByKey {lt : κ → κ → Bool} {p q : κ × α} {l : List (κ × α)} :
    q ∈ insertByKey lt p l ↔ q = p ∨ q ∈ l := by
  induction l with
  | nil => simp [insertByKey]
  | cons r rs ih =>
    simp only [insertByKey]
    cases h : lt r.1 p.1 <;> simp [h, ih, List.mem_cons] <;> tauto

theorem insertByKey_perm {lt : κ → κ → Bool} (p : κ × α) (l : List (κ × α)) :
    List.Perm (insertByKey lt p l) (p :: l) := by
  induction l with
  | nil => simp [insertByKey]
  | cons q qs ih =>
    simp only [insertByKey]
    cases h : lt q.1 p.1
    · simp
    · simp only [if_pos]
      exact (ih.cons q).trans (List.Perm.swap p q qs)

theorem sortByKey_perm (lt : κ → κ → Bool) (l : List (κ × α)) :
    List.Perm (sortByKey lt l) l := by
  induction l with
  | nil => exact List.Perm.refl []
  | cons p ps ih =>
    exact (insertByKey_perm p (sortByKey lt ps)).trans (ih.cons p)

theorem insertByKey_pairwise {lt : κ → κ → Bool}
    (hasym : ∀ a b, lt a b = true → lt b a = false)
    (htr : ∀ a b c, lt b a = false → lt c b = false → lt c a = false)
    {p : κ × α} {l : List (κ × α)}
    (hl : l.Pairwise (fun q r => lt r.1 q.1 = false)) :
    (insertByKey lt p l).Pairwise (fun q r => lt r.1 q.1 = false) := by
  induction l with
  | nil => simp [insertByKey]
  | cons q qs ih =>
    rcases List.pairwise_cons.mp hl with ⟨hq, hqs⟩
    simp only [insertByKey]
    cases h : lt q.1 p.1
    · simp only [Bool.false_eq_true, if_false]
      refine List.pairwise_cons.mpr ⟨?_, hl⟩
      intro r hr
      rcases List.mem_cons.mp hr with rfl | hr
      · exact h
      · exact htr _ _ _ h (hq r hr)
    · simp only [if_pos]
      refine List.pairwise_cons.mpr ⟨?_, ih hqs⟩
      intro r hr
      rcases mem_insertByKey.mp hr with rfl | hr
      · exact hasym _ _ h
      · exact hq r hr

theorem sortByKey_pairwise {lt : κ → κ → Bool}
    (hasym : ∀ a b, lt a b = true → lt b a = false)
    (htr : ∀ a b c, lt b a = false → lt c b = false → lt c a = false)
    (l : List (κ × α)) :
    (sortByKey lt l).Pairwise (fun q r => lt r.1 q.1 = false) := by
  induction l with
  | nil => exact List.Pairwise.nil
  | cons p ps ih => exact insertByKey_pairwise hasym htr ih

theorem filter_insertByKey [DecidableEq κ] {lt : κ → κ → Bool}
    (hirr : ∀ a, lt a a = false) (p : κ × α) (l : List (κ × α)) (k : κ) :
    (insertByKey lt p l).filter (fun q => decide (q.1 = k))
      = ((p :: l).filter (fun q => decide (q.1 = k))) := by
  induction l with
  | nil => rfl
  | cons q qs ih =>
    simp only [insertByKey]
    cases h : lt q.1 p.1
    · rfl
    · simp only [if_pos]
      by_cases hq : q.1 = k
      · by_cases hp : p.1 = k
        · exfalso
          rw [hq, ← hp] at h
          rw [hirr p.1] at h
          exact Bool.false_ne_true h
        · simp [List.filter_cons, hq, hp, ih]
      · simp [List.filter_cons, hq, ih]

theorem filter_sortByKey [DecidableEq κ] {lt : κ → κ → Bool}
    (hirr : ∀ a, lt a a = false) (l : List (κ × α)) (k : κ) :
    (sortByKey lt l).filter (fun q => decide (q.1 = k))
      = l.filter (fun q => decide (q.1 = k)) := by
  induction l with
  | nil => rfl
  | cons p ps ih =>
    simp only [sortByKey]
    rw [filter_insertByKey hirr]
    simp [List.filter_cons, ih]

/- ## Derived properties of `sortArrivals` -/

theorem sortArrivals_perm (records : List ArrivalInfo) :
    List.Perm (sortArrivals records) records := by
  unfold sortArrivals
  have h := (sortByKey_perm (fun a b : Int => decide (a < b))
      (records.map (fun a => (sort_key a, a)))).map Prod.snd
  simpa [List.map_map, Function.comp_def] using h

theorem sortArrivals_key_fst {records : List ArrivalInfo}
    {p : Int × ArrivalInfo}
    (hp : p ∈ sortByKey (fun a b : Int => decide (a < b))
        (records.map (fun a => (sort_key a, a)))) :
    p.1 = sort_key p.2 := by
  have hmem := (sortByKey_perm _ _).mem_iff.mp hp
  rcases List.mem_map.mp hmem with ⟨a, _, rfl⟩
  rfl

theorem sortArrivals_sorted (records : List ArrivalInfo) :
    (sortArrivals records).Pairwise (fun a b => sort_key a ≤ sort_key b) := by
  unfold sortArrivals
  rw [List.pairwise_map]
  have hp := @sortByKey_pairwise Int ArrivalInfo
    (fun a b : Int => decide (a < b))
    (fun a b h => by simp at h ⊢; omega)
    (fun a b c h1 h2 => by simp at h1 h2 ⊢; omega)
    (records.map (fun a => (sort_key a, a)))
  refine hp.imp_of_mem ?_
  intro p q hpmem hqmem h
  have h1 := sortArrivals_key_fst hpmem
  have h2 := sortArrivals_key_fst hqmem
  simp at h
  rw [← h1, ← h2]
  exact h

theorem sortArrivals_stable (records : List ArrivalInfo) (k : Int) :
    (sortArrivals records).filter (fun a => decide (sort_key a = k))
      = records.filter (fun a => decide (sort_key a = k)) := by
  unfold sortArrivals
  rw [List.filter_map]
  have hcong1 : (sortByKey (fun a b : Int => decide (a < b))
        (records.map (fun a => (sort_key a, a)))).filter
        ((fun a => decide (sort_key a = k)) ∘ Prod.snd)
      = (sortByKey (fun a b : Int => decide (a < b))
        (records.map (fun a => (sort_key a, a)))).filter
        (fun p => decide (p.1 = k)) := by
    apply List.filter_congr
    intro p hp
    have hk := sortArrivals_key_fst hp
    simp [Function.comp, hk]
  rw [hcong1, filter_sortByKey (fun a => by simp)]
  have hcong2 : (records.map (fun a => (sort_key a, a))).filter
        (fun p => decide (p.1 = k))
      = (records.map (fun a => (sort_key a, a))).filter
        ((fun a => decide (sort_key a = k)) ∘ Prod.snd) := by
    apply List.filter_congr
    intro p hp
    rcases List.mem_map.mp hp with ⟨a, _, rfl⟩
    simp [Function.comp]
  rw [hcong2, ← List.filter_map]
  simp [List.map_map, Function.comp_def]

/- ## Claim C1 -/

/-- C1: for every arrival record, the rank key (`ArrivalInfo.sort_key`) is
`arrival_seconds` itself when `arrival_seconds > 0`; otherwise, with the
branches tested in this order on the status message: `N * 120` when the
message contains the pattern `N번째 전역` (leftmost regex match), else
`1 * 120` when it contains "전역 출발" or "전역 도착", else `0` when it
contains "당역 진입" or "도착", else `999 * 120` for an unrecognized
message. -/
theorem C1_sort_key_branches (a : ArrivalInfo) :
    (0 < a.arrival_seconds → sort_key a = a.arrival_seconds) ∧
    (a.arrival_seconds ≤ 0 →
      (∀ n, stationCountSearch a.arrival_message.toList = Option.some n →
        sort_key a = (n : Int) * 120) ∧
      (stationCountSearch a.arrival_message.toList = Option.none →
        ((containsSub "전역 출발" a.arrival_message.toList
            || containsSub "전역 도착" a.arrival_message.toList) = true →
          sort_key a = 1 * 120) ∧
        ((containsSub "전역 출발" a.arrival_message.toList
            || containsSub "전역 도착" a.arrival_message.toList) = false →
          (containsSub "당역 진입" a.arrival_message.toList
            || containsSub "도착" a.arrival_message.toList) = true →
          sort_key a = 0) ∧
        ((containsSub "전역 출발" a.arrival_message.toList
            || containsSub "전역 도착" a.arrival_message.toList) = false →
          (containsSub "당역 진입" a.arrival_message.toList
            || containsSub "도착" a.arrival_message.toList) = false →
          sort_key a = 999 * 120))) := by
  constructor
  · intro h
    simp [sort_key, h]
  · intro hle
    have hnot : ¬ a.arrival_seconds > 0 := not_lt.mpr hle
    refine ⟨?_, ?_⟩
    · intro n hn
      have hp : parse_station_count a.arrival_message = n := by
        unfold parse_station_count
        rw [hn]
      simp [sort_key, hnot, hp]
    · intro hnone
      refine ⟨?_, ?_, ?_⟩
      · intro hc
        have hp : parse_station_count a.arrival_message = 1 := by
          unfold parse_station_count
          rw [hnone, hc]
          simp
        simp [sort_key, hnot, hp]
      · intro hc1 hc2
        have hp : parse_station_count a.arrival_message = 0 := by
          unfold parse_station_count
          rw [hnone, hc1, hc2]
          simp
        simp [sort_key, hnot, hp]
      · intro hc1 hc2
        have hp : parse_station_count a.arrival_message = 999 := by
          unfold parse_station_count
          rw [hnone, hc1, hc2]
          simp
        simp [sort_key, hnot, hp]

/-- Witness for C1: the theorem applied to one concrete record per branch. -/
theorem C1_sort_key_branches_witness :
    sort_key ⟨"2호선", "강남", "상행", "성수", "", 30, "일반"⟩ = 30 ∧
    sort_key ⟨"2호선", "강남", "상행", "성수", "2번째 전역", 0, "일반"⟩ = 2 * 120 ∧
    sort_key ⟨"2호선", "강남", "상행", "성수", "전역 출발", 0, "일반"⟩ = 1 * 120 ∧
    sort_key ⟨"2호선", "강남", "상행", "성수", "당역 진입", 0, "일반"⟩ = 0 ∧
    sort_key ⟨"2호선", "강남", "상행", "성수", "출발 대기", 0, "일반"⟩ = 999 * 120 :=
  ⟨(C1_sort_key_branches _).1 (by decide),
   ((C1_sort_key_branches _).2 (by decide)).1 2 (by decide),
   (((C1_sort_key_branches _).2 (by decide)).2 (by decide)).1 (by decide),
   (((C1_sort_key_branches _).2 (by decide)).2 (by decide)).2.1 (by decide) (by decide),
   (((C1_sort_key_branches _).2 (by decide)).2 (by decide)).2.2 (by decide) (by decide)⟩

/- ## Claim C2 -/

/-- The three records of the spec's rank-key scenario. -/
def rec3rdStation : ArrivalInfo :=
  ⟨"2호선", "강남", "상행", "성수", "3번째 전역", 0, "일반"⟩

/-- Record whose status message is "전역 도착". -/
def recPrevArrived : ArrivalInfo :=
  ⟨"2호선", "강남", "상행", "성수", "전역 도착", 0, "일반"⟩

/-- Record with explicit 45 seconds to arrival. -/
def rec45s : ArrivalInfo :=
  ⟨"2호선", "강남", "상행", "성수", "", 45, "일반"⟩

/-- C2 counterexample: the claim says the message "전역 도착" (with
`arrival_seconds = 0`) yields rank key 0, but `_parse_station_count`
returns 1 for it, so the rank key is `1 * 120 = 120`, not 0. -/
theorem C2_rank_scenario_cex :
    sort_key recPrevArrived = 120 ∧ (120 : Int) ≠ 0 := by decide

/-- C2 (amended): with `arrival_seconds = 0`, the message "3번째 전역"
yields rank key 360 and the message "전역 도착" yields rank key 120 (not
0); sorting these two records together with a 45-second record still
yields the order [45-seconds record, "전역 도착" record, "3번째 전역"
record]. -/
theorem C2_rank_scenario :
    sort_key rec3rdStation = 360 ∧
    sort_key recPrevArrived = 120 ∧
    sort_key rec45s = 45 ∧
    sortArrivals [rec3rdStation, recPrevArrived, rec45s]
      = [rec45s, recPrevArrived, rec3rdStation] := by decide

/- ## Claim C5 -/

/-- A "당역 진입" record carrying explicit positive seconds. -/
def recApproach200 : ArrivalInfo :=
  ⟨"2호선", "강남", "상행", "성수", "당역 진입", 200, "일반"⟩

/-- A "전역 출발" record with no explicit seconds. -/
def recPrevDeparted : ArrivalInfo :=
  ⟨"2호선", "강남", "상행", "성수", "전역 출발", 0, "일반"⟩

/-- C5 counterexample: a "당역 진입" record *can* sort after a
"전역 출발" record — when it carries explicit positive seconds (here 200,
rank 200) it is placed behind the "전역 출발" record (rank 120), so the
claim's unconditional "never sorts after" is false. -/
theorem C5_sorted_stable_cex :
    sortArrivals [recApproach200, recPrevDeparted]
      = [recPrevDeparted, recApproach200] ∧
    containsSub "당역 진입" recApproach200.arrival_message.toList = true ∧
    containsSub "전역 출발" recPrevDeparted.arrival_message.toList = true := by
  decide

/-- C5 (amended): `get_realtime_arrivals` returns its records sorted
ascending by rank key, and the sort is stable (records with equal rank
keys keep the provider's relative order); of any two records both with
explicit positive seconds the one with fewer seconds comes strictly
first; and a "당역 진입" record never sorts after a "전역 출발" record
*provided both records have `arrival_seconds = 0`* (rank derived from the
message alone). -/
theorem C5_sorted_stable (records : List ArrivalInfo) :
    (sortArrivals records).Pairwise (fun a b => sort_key a ≤ sort_key b) ∧
    (∀ k : Int, (sortArrivals records).filter (fun a => decide (sort_key a = k))
        = records.filter (fun a => decide (sort_key a = k))) ∧
    (∀ i j : Fin (sortArrivals records).length,
      0 < ((sortArrivals records).get i).arrival_seconds →
      0 < ((sortArrivals records).get j).arrival_seconds →
      ((sortArrivals records).get i).arrival_seconds
        < ((sortArrivals records).get j).arrival_seconds →
      (i : Nat) < (j : Nat)) ∧
    (∀ i j : Fin (sortArrivals records).length,
      ((sortArrivals records).get i).arrival_seconds = 0 →
      ((sortArrivals records).get i).arrival_message = "당역 진입" →
      ((sortArrivals records).get j).arrival_seconds = 0 →
      ((sortArrivals records).get j).arrival_message = "전역 출발" →
      (i : Nat) ≤ (j : Nat)) := by
  have hsorted := sortArrivals_sorted records
  refine ⟨hsorted, sortArrivals_stable records, ?_, ?_⟩
  · intro i j hi hj hlt
    by_contra hcon
    push_neg at hcon
    rcases Nat.lt_or_ge (j : Nat) (i : Nat) with hji | hji
    · have hle := List.pairwise_iff_get.mp hsorted j i hji
      have hki : sort_key ((sortArrivals records).get i)
          = ((sortArrivals records).get i).arrival_seconds := by
        unfold sort_key
        rw [if_pos hi]
      have hkj : sort_key ((sortArrivals records).get j)
          = ((sortArrivals records).get j).arrival_seconds := by
        unfold sort_key
        rw [if_pos hj]
      rw [hkj, hki] at hle
      omega
    · have : (i : Nat) = (j : Nat) := by omega
      have : i = j := Fin.ext this
      subst this
      omega
  · intro i j hi0 himsg hj0 hjmsg
    by_contra hcon
    push_neg at hcon
    have hle := List.pairwise_iff_get.mp hsorted j i hcon
    have hki : sort_key ((sortArrivals records).get i) = 0 := by
      unfold sort_key
      rw [if_neg (by omega : ¬ ((sortArrivals records).get i).arrival_seconds > 0),
        himsg]
      decide
    have hkj : sort_key ((sortArrivals records).get j) = 120 := by
      unfold sort_key
      rw [if_neg (by omega : ¬ ((sortArrivals records).get j).arrival_seconds > 0),
        hjmsg]
      decide
    rw [hki, hkj] at hle
    omega

/-- Record with explicit 30 seconds, for the C5 witness. -/
def recSec30 : ArrivalInfo := ⟨"2호선", "강남", "상행", "성수", "", 30, "일반"⟩

/-- Record with explicit 45 seconds, for the C5 witness. -/
def recSec45 : ArrivalInfo := ⟨"2호선", "강남", "상행", "성수", "", 45, "일반"⟩

/-- A "당역 진입" record with no explicit seconds, for the C5 witness. -/
def recDang0 : ArrivalInfo := ⟨"2호선", "강남", "상행", "성수", "당역 진입", 0, "일반"⟩

/-- Witness for C5: concrete instances of the positional conclusions. -/
theorem C5_sorted_stable_witness : ((0 : Nat) < 1) ∧ ((0 : Nat) ≤ 1) :=
  ⟨(C5_sorted_stable [recSec45, recSec30]).2.2.1
      ⟨0, by decide⟩ ⟨1, by decide⟩ (by decide) (by decide) (by decide),
   (C5_sorted_stable [recPrevDeparted, recDang0]).2.2.2
      ⟨0, by decide⟩ ⟨1, by decide⟩ (by decide) (by decide) (by decide) (by decide)⟩

/- ## Claim C8 -/

/-- A successful `mapExcept` produces exactly one output per input. -/
theorem mapExcept_ok_length {f : α → Except ε β} {l : List α} {bs : List β}
    (h : mapExcept f l = .ok bs) : bs.length = l.length := by
  induction l generalizing bs with
  | nil =>
    unfold mapExcept at h
    cases h
    rfl
  | cons a as ih =>
    unfold mapExcept at h
    cases hf : f a with
    | error e => rw [hf] at h; cases h
    | ok b =>
      rw [hf] at h
      cases hm : mapExcept f as with
      | error e => rw [hm] at h; cases h
      | ok bs' =>
        rw [hm] at h
        cases h
        simp [ih hm]

/-- All values stored under the given keys are strings (or the keys are
absent): the well-shapedness of one provider arrival row. -/
def strShaped (e : List (String × PyVal)) (keys : List String) : Bool :=
  keys.all (fun k =>
    match e.lookup k with
    | Option.none => true
    | Option.some (.str _) => true
    | Option.some _ => false)

/-- A string-typed field extraction succeeds on a well-shaped row. -/
theorem getStrField_ok {e : List (String × PyVal)} {k : String} (d : String)
    (h : (match e.lookup k with
          | Option.none => true
          | Option.some (.str _) => true
          | Option.some _ => false) = true) :
    ∃ s, getStrField (.dict e) k d = .ok s := by
  cases hl : e.lookup k with
  | none => exact ⟨d, by simp [getStrField, hl]⟩
  | some v =>
    cases v with
    | str s => exact ⟨s, by simp [getStrField, hl]⟩
    | none => rw [hl] at h; exact absurd h (by simp)
    | bool b => rw [hl] at h; exact absurd h (by simp)
    | int n => rw [hl] at h; exact absurd h (by simp)
    | list xs => rw [hl] at h; exact absurd h (by simp)
    | dict d2 => rw [hl] at h; exact absurd h (by simp)

/-- C8: for every well-shaped raw arrival item, parsing succeeds (the
record is kept, never dropped and never an error) and the provider line
identifier `subwayId` is resolved through the static `LINE_IDS` table,
with an identifier absent from the table passing through unchanged as the
record's `line_name`; and the loop plus sort keeps exactly one record per
item. -/
theorem C8_line_passthrough :
    (∀ (LINE_IDS : List (String × String)) (stn : String)
        (e : List (String × PyVal)) (sid : String),
      strShaped e ["subwayId", "statnNm", "updnLine", "bstatnNm",
        "arvlMsg2", "btrainSttus"] = true →
      getStrField (.dict e) "subwayId" "" = .ok sid →
      ∃ info, readArrival LINE_IDS stn (.dict e) = .ok info ∧
        info.line_name = ((LINE_IDS.lookup sid).getD sid)) ∧
    (∀ (LINE_IDS : List (String × String)) (stn : String)
        (items : List PyVal) (infos : List ArrivalInfo),
      mapExcept (readArrival LINE_IDS stn) items = .ok infos →
      infos.length = items.length ∧ List.Perm (sortArrivals infos) infos) := by
  constructor
  · intro table stn e sid hsh hsid
    simp only [strShaped, List.all_cons, List.all_nil, Bool.and_eq_true,
      Bool.and_true] at hsh
    obtain ⟨h1, h2, h3, h4, h5, h6⟩ := hsh
    obtain ⟨s2, hs2⟩ := getStrField_ok stn h2
    obtain ⟨s3, hs3⟩ := getStrField_ok "" h3
    obtain ⟨s4, hs4⟩ := getStrField_ok "" h4
    obtain ⟨s5, hs5⟩ := getStrField_ok "" h5
    obtain ⟨s6, hs6⟩ := getStrField_ok "일반" h6
    have hred : readArrival table stn (.dict e)
        = .ok { line_name := (table.lookup sid).getD sid
                station_name := s2
                direction := s3
                destination := s4
                arrival_message := s5
                arrival_seconds := parseBarvl ((e.lookup "barvlDt").getD (.str "0"))
                train_type := if s6 = "" then "일반" else s6 } := by
      unfold readArrival
      rw [show getField (.dict e) "barvlDt" (.str "0")
            = .ok ((e.lookup "barvlDt").getD (.str "0")) from rfl]
      rw [hsid, hs2, hs3, hs4, hs5, hs6]
    exact ⟨_, hred, rfl⟩
  · intro table stn items infos h
    exact ⟨mapExcept_ok_length h, sortArrivals_perm infos⟩

/-- Witness for C8: a concrete item whose `subwayId` is absent from the
table passes through, and a concrete one-item list is fully kept. -/
theorem C8_line_passthrough_witness :
    (∃ info, readArrival [("1002", "2호선")] "강남"
        (.dict [("subwayId", PyVal.str "9999")]) = .ok info ∧
      info.line_name = "9999") ∧
    (∀ infos, mapExcept (readArrival [("1002", "2호선")] "강남")
        [.dict [("subwayId", PyVal.str "1002")]] = .ok infos →
      infos.length = 1) := by
  constructor
  · exact C8_line_passthrough.1 [("1002", "2호선")] "강남"
      [("subwayId", PyVal.str "9999")] "9999" (by decide) rfl
  · intro infos h
    exact (C8_line_passthrough.2 [("1002", "2호선")] "강남"
      [.dict [("subwayId", PyVal.str "1002")]] infos h).1

/- ## Claim C3 -/

/-- When a line filter is supplied, any row accepted by the scanning loop
resolves to exactly that line. -/
theorem findFr_some_line {l : String} {rs : List StationRow} {fr api : String}
    (h : findFr (Option.some l) rs = Option.some (fr, api)) : api = l := by
  induction rs with
  | nil => cases h
  | cons row rest ih =>
    simp only [findFr] at h
    split at h
    · exact ih h
    · split at h
      · rename_i hcond
        cases h
        simp at hcond
        exact hcond.symm
      · exact ih h

/-- Provider rows for the C3 counterexample: one row for 강남 on line 2. -/
def rowsGangnam : String → List StationRow := fun _ => [⟨"02호선", "222"⟩]

/-- C3 counterexample: with no line filter, the first (cache-miss) call
returns the resolved line "2호선" but the second (cache-hit) call returns
an empty line name — the cached pair differs from the first call's. -/
theorem C3_cache_transparency_cex :
    (get_station_fr_code rowsGangnam ⟨[]⟩ "강남" Option.none).1
      = Option.some ("222", "2호선") ∧
    (get_station_fr_code rowsGangnam
        (get_station_fr_code rowsGangnam ⟨[]⟩ "강남" Option.none).2
        "강남" Option.none).1
      = Option.some ("222", "") ∧
    (Option.some ("222", "2호선") : Option (String × String))
      ≠ Option.some ("222", "") := by
  decide

/-- C3 (amended): with provider data unchanged, a second call to
`get_station_fr_code` with the same arguments always returns the same
station code as the first call, and returns the identical (code, line)
pair whenever a line filter is supplied; with no filter, the cache-hit
path degrades the resolved line name to `""`. -/
theorem C3_cache_transparency (rows : String → List StationRow)
    (st : FrCacheState) (station : String) (line : Option String) :
    (((get_station_fr_code rows
          (get_station_fr_code rows st station line).2 station line).1).map Prod.fst
      = ((get_station_fr_code rows st station line).1).map Prod.fst) ∧
    (line ≠ Option.none →
      (get_station_fr_code rows
          (get_station_fr_code rows st station line).2 station line).1
        = (get_station_fr_code rows st station line).1) := by
  unfold get_station_fr_code
  cases hcache : st.cache.lookup (station, line.getD "") with
  | some fr => simp [hcache]
  | none =>
    by_cases hrs : (rows station).isEmpty
    · simp [hcache, hrs]
    · cases hf : findFr line (rows station) with
      | none => simp [hcache, hrs, hf]
      | some p =>
        obtain ⟨fr, api⟩ := p
        have hhit : (((station, line.getD ""), fr) :: st.cache).lookup
            (station, line.getD "") = Option.some fr := by
          simp [List.lookup]
        constructor
        · simp [hcache, hrs, hf, hhit]
        · intro hne
          obtain ⟨l, rfl⟩ := Option.ne_none_iff_exists'.mp hne
          have hapi : api = l := findFr_some_line hf
          simp only [Option.getD_some] at hcache hhit
          simp [hcache, hrs, hf, hhit, hapi]

/-- Witness for C3: a concrete repeated lookup with a line filter returns
the identical pair both times. -/
theorem C3_cache_transparency_witness :
    (get_station_fr_code rowsGangnam
        (get_station_fr_code rowsGangnam ⟨[]⟩ "강남" (Option.some "2호선")).2
        "강남" (Option.some "2호선")).1
      = (get_station_fr_code rowsGangnam ⟨[]⟩ "강남" (Option.some "2호선")).1 :=
  (C3_cache_transparency rowsGangnam ⟨[]⟩ "강남" (Option.some "2호선")).2
    (by decide)

/- ## Claim C6 -/

/-- C6: parsing the `barvlDt` seconds field never raises: for every raw
item row the extraction succeeds without exception, and a missing, empty,
or non-integer value normalizes to `arrival_seconds = 0` while a
well-formed integer string parses to that integer. -/
theorem C6_barvl_parse (e : List (String × PyVal)) :
    (getField (.dict e) "barvlDt" (.str "0")
      = .ok ((e.lookup "barvlDt").getD (.str "0"))) ∧
    (e.lookup "barvlDt" = Option.none →
      parseBarvl ((e.lookup "barvlDt").getD (.str "0")) = 0) ∧
    (e.lookup "barvlDt" = Option.some (.str "") →
      parseBarvl ((e.lookup "barvlDt").getD (.str "0")) = 0) ∧
    (∀ s, e.lookup "barvlDt" = Option.some (.str s) →
      pyIntOfString s = .error .valueError →
      parseBarvl ((e.lookup "barvlDt").getD (.str "0")) = 0) ∧
    (∀ v, e.lookup "barvlDt" = Option.some v → pyInt v = .error .typeError →
      parseBarvl ((e.lookup "barvlDt").getD (.str "0")) = 0) ∧
    (∀ s n, e.lookup "barvlDt" = Option.some (.str s) →
      pyIntOfString s = .ok n →
      parseBarvl ((e.lookup "barvlDt").getD (.str "0")) = n) := by
  refine ⟨rfl, ?_, ?_, ?_, ?_, ?_⟩
  · intro h
    rw [h]
    decide
  · intro h
    rw [h]
    decide
  · intro s h hp
    rw [h]
    simp only [Option.getD_some]
    unfold parseBarvl
    by_cases hs : s = ""
    · subst hs
      decide
    · have ht : truthy (.str s) = true := by simp [truthy, hs]
      rw [if_pos ht]
      simp [pyInt, hp]
  · intro v h hp
    rw [h]
    simp only [Option.getD_some]
    unfold parseBarvl
    cases htv : truthy v
    · rw [if_neg (by decide : ¬ (false = true))]
      decide
    · simp [hp]
  · intro s n h hp
    rw [h]
    simp only [Option.getD_some]
    unfold parseBarvl
    have hs : s ≠ "" := by
      intro hs0
      subst hs0
      rw [show pyIntOfString "" = .error .valueError from rfl] at hp
      cases hp
    have ht : truthy (.str s) = true := by simp [truthy, hs]
    rw [if_pos ht]
    simp [pyInt, hp]

/-- Witness for C6: a missing field, an empty field, a malformed field
and a well-formed field, each at a concrete row. -/
theorem C6_barvl_parse_witness :
    parseBarvl ((([] : List (String × PyVal)).lookup "barvlDt").getD (.str "0")) = 0 ∧
    parseBarvl ((([("barvlDt", PyVal.str "")]).lookup "barvlDt").getD (.str "0")) = 0 ∧
    parseBarvl ((([("barvlDt", PyVal.str "soon")]).lookup "barvlDt").getD (.str "0")) = 0 ∧
    parseBarvl ((([("barvlDt", PyVal.str "45")]).lookup "barvlDt").getD (.str "0")) = 45 :=
  ⟨(C6_barvl_parse []).2.1 rfl,
   (C6_barvl_parse [("barvlDt", PyVal.str "")]).2.2.1 rfl,
   (C6_barvl_parse [("barvlDt", PyVal.str "soon")]).2.2.2.1 "soon" rfl rfl,
   (C6_barvl_parse [("barvlDt", PyVal.str "45")]).2.2.2.2.2 "45" 45 rfl rfl⟩

/- ## Claim C7 -/

/-- C7: for every timetable sorted ascending by departure time and every
count, `get_upcoming` returns at most `count` entries, every returned
entry departs at or after the current time, the returned entries are in
ascending order, and an empty timetable yields an empty list, never a
fault. -/
theorem C7_upcoming (timetable : List TimetableEntry) (count : Nat)
    (now : String)
    (hsorted : timetable.Pairwise
      (fun a b => pyStrLe a.departure_time b.departure_time = true)) :
    (get_upcoming timetable count now).length ≤ count ∧
    (∀ e ∈ get_upcoming timetable count now,
      pyStrLe now e.departure_time = true) ∧
    (get_upcoming timetable count now).Pairwise
      (fun a b => pyStrLe a.departure_time b.departure_time = true) ∧
    (timetable = [] → get_upcoming timetable count now = []) := by
  refine ⟨?_, ?_, ?_, ?_⟩
  · exact List.length_take_le count _
  · intro x hx
    have hx' : x ∈ timetable.filter (fun t => pyStrLe now t.departure_time) :=
      (List.take_sublist _ _).subset hx
    exact (List.mem_filter.mp hx').2
  · exact hsorted.sublist
      ((List.take_sublist _ _).trans (List.filter_sublist _))
  · intro h
    subst h
    simp [get_upcoming]

/-- Concrete timetable entries for the C7 witness. -/
def tteEarly : TimetableEntry := ⟨"T1", "성수", "05:30:00", "05:31:00", false⟩

/-- Second concrete timetable entry for the C7 witness. -/
def tteLate : TimetableEntry := ⟨"T2", "성수", "23:40:00", "23:41:00", false⟩

/-- Witness for C7: the theorem applied to a concrete sorted timetable. -/
theorem C7_upcoming_witness :
    (get_upcoming [tteEarly, tteLate] 1 "12:00:00").length ≤ 1 ∧
    (∀ e ∈ get_upcoming [tteEarly, tteLate] 1 "12:00:00",
      pyStrLe "12:00:00" e.departure_time = true) :=
  ⟨(C7_upcoming [tteEarly, tteLate] 1 "12:00:00" (by decide)).1,
   (C7_upcoming [tteEarly, tteLate] 1 "12:00:00" (by decide)).2.1⟩

/- ## Claim C9 -/

/-- C9: evaluated on the current KST date, `get_weekday_type` returns day
code 2 on Saturday (`weekday() = 5`), 3 on Sunday (`weekday() = 6`), and
1 on any other weekday. -/
theorem C9_weekday_codes :
    (get_weekday_type 5).1 = 2 ∧ (get_weekday_type 6).1 = 3 ∧
    (∀ d : Nat, d ≠ 5 → d ≠ 6 → (get_weekday_type d).1 = 1) := by
  refine ⟨rfl, rfl, ?_⟩
  intro d h5 h6
  simp [get_weekday_type, h5, h6]

/-- Witness for C9: a Monday (`weekday() = 0`) maps to day code 1. -/
theorem C9_weekday_codes_witness : (get_weekday_type 0).1 = 1 :=
  C9_weekday_codes.2.2 0 (by decide) (by decide)

/- ## Claim C4 -/

/-- C4 counterexample: a decoded payload that is valid JSON but not an
object (here a top-level array) makes `get_realtime_arrivals` raise
`AttributeError` (`data.get` is evaluated outside the `try` block), so a
malformed payload can escape as an exception rather than an empty list. -/
theorem C4_provider_errors_cex :
    get_realtime_arrivals [] "강남" (.http 200 (.list []))
      = .error .attributeError := rfl

/-- C4 (amended): `get_realtime_arrivals` and `get_timetable_kric` (the
latter for a line present in `KRIC_LINE_CODES` and a weekday present in
`_KRIC_DAY_CODE`) return the empty list — never an exception — for every
fetch exception (network error, timeout, or JSON-decode failure), every
non-200 HTTP status, every object-shaped realtime error envelope whose
status is not 200, and every object-shaped KRIC header whose resultCode
is not "00"; a decoded payload of unexpected shape, however, can raise. -/
theorem C4_provider_errors :
    (∀ (table : List (String × String)) (stn : String),
      get_realtime_arrivals table stn .exn = .ok []) ∧
    (∀ (table : List (String × String)) (stn : String) (code : Nat)
        (data : PyVal), code ≠ 200 →
      get_realtime_arrivals table stn (.http code data) = .ok []) ∧
    (∀ (table : List (String × String)) (stn : String)
        (d em : List (String × PyVal)) (sv : PyVal),
      d.lookup "errorMessage" = Option.some (.dict em) → em ≠ [] →
      em.lookup "status" = Option.some sv → pyEqInt sv 200 = false →
      get_realtime_arrivals table stn (.http 200 (.dict d)) = .ok []) ∧
    (∀ (key line sc : String) (wd dc : Nat),
      (KRIC_LINE_CODES.lookup line).isSome →
      (KRIC_DAY_CODE.lookup wd).isSome →
      get_timetable_kric key line sc wd dc .exn = .ok []) ∧
    (∀ (key line sc : String) (wd dc code : Nat) (data : PyVal),
      (KRIC_LINE_CODES.lookup line).isSome →
      (KRIC_DAY_CODE.lookup wd).isSome → code ≠ 200 →
      get_timetable_kric key line sc wd dc (.http code data) = .ok []) ∧
    (∀ (key line sc : String) (wd dc : Nat)
        (d hm : List (String × PyVal)) (rc : PyVal),
      (KRIC_LINE_CODES.lookup line).isSome →
      (KRIC_DAY_CODE.lookup wd).isSome →
      d.lookup "header" = Option.some (.dict hm) →
      hm.lookup "resultCode" = Option.some rc → pyEqStr rc "00" = false →
      get_timetable_kric key line sc wd dc (.http 200 (.dict d)) = .ok []) := by
  refine ⟨?_, ?_, ?_, ?_, ?_, ?_⟩
  · intro table stn
    rfl
  · intro table stn code data hne
    simp [get_realtime_arrivals, hne]
  · intro table stn d em sv hd hem hsv hne
    show processRealtime table stn (PyVal.dict d) = .ok []
    have htr : truthy (.dict em) = true := by
      cases em with
      | nil => exact absurd rfl hem
      | cons a l => rfl
    unfold processRealtime
    simp [getField0, getField, hd, hsv, htr, hne]
  · intro key line sc wd dc hl hw
    unfold get_timetable_kric
    by_cases hkey : key = ""
    · rw [if_pos hkey]
    · rw [if_neg hkey]
      obtain ⟨c, hc⟩ := Option.isSome_iff_exists.mp hl
      obtain ⟨w, hwc⟩ := Option.isSome_iff_exists.mp hw
      rw [show dictIndex KRIC_LINE_CODES line = .ok c from by
        simp [dictIndex, hc]]
      rw [show dictIndex KRIC_DAY_CODE wd = .ok w from by
        simp [dictIndex, hwc]]
  · intro key line sc wd dc code data hl hw hcode
    unfold get_timetable_kric
    by_cases hkey : key = ""
    · rw [if_pos hkey]
    · rw [if_neg hkey]
      obtain ⟨c, hc⟩ := Option.isSome_iff_exists.mp hl
      obtain ⟨w, hwc⟩ := Option.isSome_iff_exists.mp hw
      rw [show dictIndex KRIC_LINE_CODES line = .ok c from by
        simp [dictIndex, hc]]
      rw [show dictIndex KRIC_DAY_CODE wd = .ok w from by
        simp [dictIndex, hwc]]
      show (if code ≠ 200 then Except.ok ([] : List TimetableEntry)
        else processKric data) = Except.ok []
      rw [if_pos hcode]
  · intro key line sc wd dc d hm rc hl hw hhd hrc hne
    unfold get_timetable_kric
    by_cases hkey : key = ""
    · rw [if_pos hkey]
    · rw [if_neg hkey]
      obtain ⟨c, hc⟩ := Option.isSome_iff_exists.mp hl
      obtain ⟨w, hwc⟩ := Option.isSome_iff_exists.mp hw
      rw [show dictIndex KRIC_LINE_CODES line = .ok c from by
        simp [dictIndex, hc]]
      rw [show dictIndex KRIC_DAY_CODE wd = .ok w from by
        simp [dictIndex, hwc]]
      show processKric (PyVal.dict d) = Except.ok []
      unfold processKric
      simp [getField0, getField, hhd, hrc, hne]

/-- Witness for C4: concrete error envelopes for both providers. -/
theorem C4_provider_errors_witness :
    get_realtime_arrivals [] "강남"
      (.http 200 (.dict [("errorMessage",
        .dict [("status", PyVal.int 500)])])) = .ok [] ∧
    get_realtime_arrivals [] "강남" (.http 404 (.dict [])) = .ok [] ∧
    get_timetable_kric "key" "1호선" "150" 1 1
      (.http 200 (.dict [("header",
        .dict [("resultCode", PyVal.str "01")])])) = .ok [] ∧
    get_timetable_kric "key" "2호선" "222" 2 1 .exn = .ok [] :=
  ⟨C4_provider_errors.2.2.1 [] "강남" [("errorMessage",
      PyVal.dict [("status", PyVal.int 500)])] [("status", PyVal.int 500)]
      (PyVal.int 500) rfl (by simp) rfl (by decide),
   C4_provider_errors.2.1 [] "강남" 404 (.dict []) (by decide),
   C4_provider_errors.2.2.2.2.2 "key" "1호선" "150" 1 1
      [("header", PyVal.dict [("resultCode", PyVal.str "01")])]
      [("resultCode", PyVal.str "01")] (PyVal.str "01")
      (by decide) (by decide) rfl rfl (by decide),
   C4_provider_errors.2.2.2.1 "key" "2호선" "222" 2 1 (by decide) (by decide)⟩

/- ## Claim C10 -/

/-- Distinct payloads under `Except.error` are distinct. -/
theorem error_ne_of_ne {e1 e2 : PyErr} (h : e1 ≠ e2) :
    (Except.error e1 : Except PyErr α) ≠ .error e2 :=
  fun hc => h (by injection hc)

/-- `Except.ok` is never an `Except.error`. -/
theorem ok_ne_error {a : α} {e : PyErr} :
    (Except.ok a : Except PyErr α) ≠ .error e :=
  fun hc => Except.noConfusion hc

/-- The only exception `getField` can raise is `AttributeError`. -/
theorem getField_no_keyError {item : PyVal} {k : String} {d : PyVal}
    {e : PyErr} (h : getField item k d = .error e) : e = .attributeError := by
  cases item <;> simp [getField] at h <;> exact h.symm

/-- `getStrField` raises only `AttributeError` or `TypeError`. -/
theorem getStrField_no_keyError {item : PyVal} {k d : String} {e : PyErr}
    (h : getStrField item k d = .error e) : e ≠ .keyError := by
  cases item with
  | dict entries =>
    rw [show getStrField (.dict entries) k d
        = (match entries.lookup k with
           | Option.none => .ok d
           | Option.some (.str s) => .ok s
           | Option.some _ => .error .typeError) from rfl] at h
    cases hl : entries.lookup k with
    | none =>
      rw [hl] at h
      simp at h
    | some v =>
      rw [hl] at h
      cases v with
      | str s => simp at h
      | none => simp at h; subst h; decide
      | bool b => simp at h; subst h; decide
      | int n => simp at h; subst h; decide
      | list xs => simp at h; subst h; decide
      | dict d2 => simp at h; subst h; decide
  | none => injection h with h2; subst h2; decide
  | bool b => injection h with h2; subst h2; decide
  | int n => injection h with h2; subst h2; decide
  | str s => injection h with h2; subst h2; decide
  | list xs => injection h with h2; subst h2; decide

/-- `_norm_time` raises only `TypeError`. -/
theorem norm_time_no_keyError {t : PyVal} {e : PyErr}
    (h : norm_time t = .error e) : e ≠ .keyError := by
  unfold norm_time at h
  by_cases ht : (!truthy t) = true
  · rw [if_pos ht] at h
    cases h
  · rw [if_neg ht] at h
    cases t with
    | str s => simp at h
    | none => simp at h; subst h; decide
    | bool b => simp at h; subst h; decide
    | int n => simp at h; subst h; decide
    | list xs => simp at h; subst h; decide
    | dict es => simp at h; subst h; decide

/-- One iteration of the KRIC item loop never raises `KeyError`. -/
theorem readKricItem_no_keyError (item : PyVal) :
    readKricItem item ≠ .error .keyError := by
  unfold readKricItem
  split
  · rename_i e1 he1
    exact error_ne_of_ne (by rw [getField_no_keyError he1]; decide)
  · rename_i dv hdv
    split
    · rename_i e2 he2
      exact error_ne_of_ne (norm_time_no_keyError he2)
    · rename_i dpt hdpt
      split
      · exact ok_ne_error
      · split
        · rename_i e3 he3
          exact error_ne_of_ne (by rw [getField_no_keyError he3]; decide)
        · rename_i av hav
          split
          · rename_i e4 he4
            exact error_ne_of_ne (norm_time_no_keyError he4)
          · rename_i arv harv
            split
            · rename_i e5 he5
              exact error_ne_of_ne (getStrField_no_keyError he5)
            · exact ok_ne_error

/-- A `mapExcept` over a `KeyError`-free parser never raises `KeyError`. -/
theorem mapExcept_no_keyError {f : α → Except PyErr β}
    (hf : ∀ a, f a ≠ .error .keyError) :
    ∀ l : List α, mapExcept f l ≠ .error .keyError := by
  intro l
  induction l with
  | nil =>
    unfold mapExcept
    exact ok_ne_error
  | cons a as ih =>
    unfold mapExcept
    split
    · rename_i e1 he1
      intro hc
      injection hc with hc2
      subst hc2
      exact hf a he1
    · rename_i b hb
      split
      · rename_i e2 he2
        intro hc
        injection hc with hc2
        subst hc2
        exact ih he2
      · exact ok_ne_error

/-- The KRIC response processing never raises `KeyError`. -/
theorem processKric_no_keyError (data : PyVal) :
    processKric data ≠ .error .keyError := by
  unfold processKric
  split
  · rename_i e1 he1
    exact error_ne_of_ne (by rw [getField_no_keyError he1]; decide)
  · rename_i header hheader
    split
    · rename_i e2 he2
      exact error_ne_of_ne (by rw [getField_no_keyError he2]; decide)
    · rename_i rc hrc
      split
      · exact ok_ne_error
      · split
        · rename_i e3 he3
          exact error_ne_of_ne (by rw [getField_no_keyError he3]; decide)
        · rename_i body hbody
          split
          · exact ok_ne_error
          · split
            · rename_i e4 he4
              intro hc
              injection hc with hc2
              subst hc2
              exact mapExcept_no_keyError readKricItem_no_keyError _ he4
            · exact ok_ne_error

/-- C10 counterexample: under the claim's preconditions (a line in
`KRIC_LINES`, a weekday in {1,2,3}) the function's worst outcome is not
an empty list — a malformed payload still raises `AttributeError`. -/
theorem C10_kric_worst_outcome_cex :
    "1호선" ∈ KRIC_LINES ∧ (1 : Nat) ∈ [1, 2, 3] ∧
    get_timetable_kric "key" "1호선" "150" 1 1 (.http 200 (.list []))
      = .error .attributeError :=
  ⟨by decide, by decide, rfl⟩

/-- C10 (amended): `KRIC_LINES` is contained in the keys of
`KRIC_LINE_CODES` and the keys of `_KRIC_DAY_CODE` are exactly {1,2,3},
so for every line in `KRIC_LINES` and weekday in {1,2,3} the two
unguarded dictionary indexings succeed and `get_timetable_kric` can never
raise a `KeyError`; its worst outcome on well-shaped payloads is an empty
list, though malformed payload shapes can still raise other exceptions. -/
theorem C10_kric_no_keyerror :
    (∀ l ∈ KRIC_LINES, (KRIC_LINE_CODES.lookup l).isSome) ∧
    (KRIC_DAY_CODE.map Prod.fst = [1, 2, 3]) ∧
    (∀ (key line sc : String) (wd dc : Nat) (outcome : FetchOutcome),
      line ∈ KRIC_LINES → wd ∈ [1, 2, 3] →
      get_timetable_kric key line sc wd dc outcome ≠ .error .keyError) := by
  refine ⟨by decide, by decide, ?_⟩
  intro key line sc wd dc outcome hline hwd
  have hl : (KRIC_LINE_CODES.lookup line).isSome := by
    simp [KRIC_LINES, KRIC_S1_LINES] at hline
    rcases hline with rfl | rfl | rfl | rfl | rfl | rfl | rfl | rfl | rfl | rfl | rfl
      <;> decide
  have hw : (KRIC_DAY_CODE.lookup wd).isSome := by
    simp at hwd
    rcases hwd with rfl | rfl | rfl <;> decide
  obtain ⟨c, hc⟩ := Option.isSome_iff_exists.mp hl
  obtain ⟨w, hwc⟩ := Option.isSome_iff_exists.mp hw
  unfold get_timetable_kric
  by_cases hkey : key = ""
  · rw [if_pos hkey]
    exact ok_ne_error
  · rw [if_neg hkey]
    rw [show dictIndex KRIC_LINE_CODES line = .ok c from by
      simp [dictIndex, hc]]
    rw [show dictIndex KRIC_DAY_CODE wd = .ok w from by
      simp [dictIndex, hwc]]
    cases outcome with
    | exn => exact ok_ne_error
    | http status data =>
      show (if status ≠ 200 then Except.ok ([] : List TimetableEntry)
        else processKric data) ≠ .error .keyError
      by_cases hs : status ≠ 200
      · rw [if_pos hs]
        exact ok_ne_error
      · rw [if_neg hs]
        exact processKric_no_keyError data

/-- Witness for C10: a concrete supported line and weekday. -/
theorem C10_kric_no_keyerror_witness :
    get_timetable_kric "key" "2호선" "222" 2 1 .exn ≠ .error .keyError :=
  C10_kric_no_keyerror.2.2 "key" "2호선" "222" 2 1 .exn (by decide) (by decide)
